import Mathlib

set_option maxRecDepth 100000

/-!
Verification of the MorphCV asynchronous CV-generation pipeline.

This file shallowly embeds the Python backend (flask_backend/app): the
three-tier LaTeX compilation fallback chain (services/latex_service.py),
the Gemini content-generation client and its static fallback template
(services/gemini_service.py), the Celery generation and edit tasks
(tasks/cv_tasks.py), the record-update service
(services/cv_service.py), the data model (models.py) and the
CV/download API handlers (api/cvs.py).

Strings are modelled as `List Char`; external effects (subprocess
results, file-system availability, the Gemini API) are modelled by
explicit environment records; fallible code returns `Except` or
`Option`.
-/

namespace MorphCV

/-! ## Python string primitives -/

/-- Whitespace as recognised by Python `str.strip` / `str.split`. -/
def wsChar (c : Char) : Bool :=
  c == ' ' || c == '\n' || c == '\t' || c == '\r' || c == '\x0b' || c == '\x0c'

/-- Python `str.strip`: drop leading and trailing whitespace. -/
def pyStrip (s : List Char) : List Char :=
  ((s.dropWhile wsChar).reverse.dropWhile wsChar).reverse

/-- Fuel-indexed worker for `pyReplace` (left-to-right, non-overlapping,
the replacement is not rescanned), structurally recursive so that it
evaluates in the kernel. -/
def pyReplaceAux (pat repl : List Char) : Nat → List Char → List Char
  | 0, s => s
  | _ + 1, [] => []
  | fuel + 1, c :: rest =>
    if pat.isPrefixOf (c :: rest) ∧ pat ≠ [] then
      repl ++ pyReplaceAux pat repl fuel ((c :: rest).drop pat.length)
    else
      c :: pyReplaceAux pat repl fuel rest

/-- Python `str.replace` for a non-empty pattern. -/
def pyReplace (s pat repl : List Char) : List Char :=
  pyReplaceAux pat repl s.length s

/-- Apply an ordered association list of substitutions, as the
`for placeholder, replacement in substitutions.items()` loop does. -/
def applySubs (subs : List (List Char × List Char)) (s : List Char) : List Char :=
  subs.foldl (fun acc pr => pyReplace acc pr.1 pr.2) s

/-- Python `str.lower` (ASCII). -/
def pyLower (s : List Char) : List Char :=
  s.map Char.toLower

/-- Worker for `pyTitle`: the Bool records whether the previous character
was alphabetic. -/
def pyTitleAux : Bool → List Char → List Char
  | _, [] => []
  | prevAlpha, c :: rest =>
    if c.isAlpha then
      (if prevAlpha then c.toLower else c.toUpper) :: pyTitleAux true rest
    else
      c :: pyTitleAux false rest

/-- Python `str.title` (ASCII): first letter of each word upper-cased,
the rest lower-cased. -/
def pyTitle (s : List Char) : List Char :=
  pyTitleAux false s

/-- Worker for `pySplit`; the accumulator holds the current word in
reverse. -/
def pySplitAux : List Char → List Char → List (List Char)
  | [], acc => if acc.isEmpty then [] else [acc.reverse]
  | c :: rest, acc =>
    if wsChar c then
      if acc.isEmpty then pySplitAux rest [] else acc.reverse :: pySplitAux rest []
    else
      pySplitAux rest (c :: acc)

/-- Python `str.split()` with no argument: split on whitespace runs,
discarding empty words. -/
def pySplit (s : List Char) : List (List Char) :=
  pySplitAux s []

/-- Python `sep.join(words)`. -/
def pyJoin (sep : List Char) : List (List Char) → List Char
  | [] => []
  | [w] => w
  | w :: rest => w ++ sep ++ pyJoin sep rest

/-- Python `needle in haystack`: substring occurrence, executable. -/
def occursIn (t : List Char) : List Char → Bool
  | [] => t.isEmpty
  | c :: rest => t.isPrefixOf (c :: rest) || occursIn t rest

/-! ## Data model (models.py) -/

/-- `UserTier`: user subscription tiers. -/
inductive UserTier where
  | free
  | pro
  | enterprise
  deriving DecidableEq, Repr

/-- `CVStatus`: CV generation status. -/
inductive CVStatus where
  | pending
  | processing
  | success
  | failed
  deriving DecidableEq, Repr

/-- The `User` model, restricted to the fields the quota logic reads.
`generations_left` is a database `Integer`, so an `Int`. -/
structure UserRec where
  user_tier : UserTier
  generations_left : Int
  deriving DecidableEq, Repr

/-- `User.can_generate_cv`: free users need a positive counter, other
tiers are unlimited. -/
def can_generate_cv (u : UserRec) : Bool :=
  if u.user_tier = UserTier.free then
    decide (u.generations_left > 0)
  else
    true

/-- `User.use_generation`: decrement the counter for free users with a
positive counter; otherwise leave the record unchanged. -/
def use_generation (u : UserRec) : UserRec :=
  if u.user_tier = UserTier.free ∧ u.generations_left > 0 then
    { u with generations_left := u.generations_left - 1 }
  else
    u

/-- The `CV` model (the Job Record), restricted to the mutable
processing fields plus the immutable inputs.  Timestamps are `Int`
seconds; nullable columns are `Option`. -/
structure CVRec where
  user_id : Int
  title : List Char
  template_name : List Char
  user_data : List Char
  job_description : List Char
  latex_code : Option (List Char)
  pdf_path : Option (List Char)
  jpg_path : Option (List Char)
  status : CVStatus
  task_id : Option (List Char)
  error_message : Option (List Char)
  pdf_size : Option Int
  generation_time : Option Int
  deriving DecidableEq, Repr

/-- The `DownloadToken` model, restricted to the fields read by
validity checking.  `expires_at` is an `Int` timestamp. -/
structure DownloadTokenRec where
  cv_id : Int
  user_id : Int
  file_type : List Char
  expires_at : Int
  used : Bool
  deriving DecidableEq, Repr

/-- `DownloadToken.is_valid`: not used, and the expiry lies strictly in
the future of `now`. -/
def token_is_valid (t : DownloadTokenRec) (now : Int) : Bool :=
  !t.used && decide (t.expires_at > now)

/-! ## CVService.update_cv_status (services/cv_service.py)

The record store is modelled as the `Option CVRec` holding the row with
the given id (`none` when `CV.query.get` finds nothing); commits are
assumed to succeed.  `diskHas` is the `os.path.exists(pdf_path)` probe
used for `pdf_size`, and `sizeOf` the reported size. -/

/-- `CVService.update_cv_status`: update the status and exactly the
optional fields that were passed (a `none` argument leaves the stored
field unchanged); returns the new store and the method's boolean
result. -/
def update_cv_status (db : Option CVRec) (status : CVStatus)
    (error_message latex_code pdf_path jpg_path : Option (List Char))
    (generation_time : Option Int) (diskHas : Bool) (sizeOf : Int) :
    Option CVRec × Bool :=
  match db with
  | none => (none, false)
  | some cv =>
    let cv := { cv with status := status }
    let cv := match error_message with
      | some e => { cv with error_message := some e }
      | none => cv
    let cv := match latex_code with
      | some l => { cv with latex_code := some l }
      | none => cv
    let cv := match pdf_path with
      | some p =>
        let cv := { cv with pdf_path := some p }
        if diskHas then { cv with pdf_size := some sizeOf } else cv
      | none => cv
    let cv := match jpg_path with
      | some j => { cv with jpg_path := some j }
      | none => cv
    let cv := match generation_time with
      | some t => { cv with generation_time := some t }
      | none => cv
    (some cv, true)

/-! ## Content generation client (services/gemini_service.py) -/

/-- The optional profile fields read by `get_fallback_template`.
`skills` may hold a list of strings (joined with a comma) or an
arbitrary non-list value (its `str()` form). -/
structure UserData where
  name : Option (List Char)
  email : Option (List Char)
  phone : Option (List Char)
  location : Option (List Char)
  linkedin : Option (List Char)
  github : Option (List Char)
  summary : Option (List Char)
  experience : Option (List Char)
  education : Option (List Char)
  skills : Option (List (List Char) ⊕ List Char)
  deriving Repr

/-- The profile mapping with every key absent. -/
def emptyUserData : UserData :=
  ⟨none, none, none, none, none, none, none, none, none, none⟩

/-- The titles scanned for by `extract_job_title`. -/
def common_titles : List (List Char) :=
  [("software engineer").toList, ("software developer").toList,
   ("full stack developer").toList, ("frontend developer").toList,
   ("backend developer").toList, ("data scientist").toList,
   ("product manager").toList, ("project manager").toList,
   ("marketing manager").toList, ("sales representative").toList,
   ("business analyst").toList, ("ux designer").toList,
   ("ui designer").toList, ("graphic designer").toList,
   ("content writer").toList, ("digital marketer").toList,
   ("account manager").toList, ("consultant").toList]

/-- The role keywords scanned for in the first ten words. -/
def role_keywords : List (List Char) :=
  [("engineer").toList, ("developer").toList, ("manager").toList,
   ("analyst").toList, ("designer").toList, ("specialist").toList]

/-- `extract_job_title`: first look for a known title as a substring of
the lower-cased description, else scan the first ten words for a role
keyword and title-case a window around it. -/
def extract_job_title (jd : List Char) : Option (List Char) :=
  let lowerJd := pyLower jd
  match common_titles.find? (fun t => occursIn t lowerJd) with
  | some t => some (pyTitle t)
  | none =>
    let words := (pySplit jd).take 10
    match words.findIdx? (fun w => role_keywords.contains (pyLower w)) with
    | some i =>
      if i > 0 then
        some (pyTitle (pyJoin ((" ").toList) ((words.drop (i - 2)).take (i + 1 - (i - 2)))))
      else
        some (pyTitle (words.getD 0 []))
    | none => none

/-- `get_basic_template()`: the static moderncv LaTeX template, exactly
as the source's raw string (braces written as hex escapes). -/
def get_basic_template : List Char :=
  ("\n\\documentclass[11pt,a4paper,sans]\x7bmoderncv\x7d\n\\moderncvstyle\x7bclassic\x7d\n\\moderncvcolor\x7bblue\x7d\n\\usepackage[scale=0.75]\x7bgeometry\x7d\n\\usepackage[utf8]\x7binputenc\x7d\n\n% Personal data\n\\name\x7b[NAME]\x7d\x7b\\space\x7d\n\\title\x7b[TITLE]\x7d\n\\address\x7b[ADDRESS]\x7d\x7b\\space\x7d\x7b\\space\x7d\n\\phone[mobile]\x7b[PHONE]\x7d\n\\email\x7b[EMAIL]\x7d\n\\social[linkedin]\x7b[LINKEDIN]\x7d\n\\social[github]\x7b[GITHUB]\x7d\n\n\\begin\x7bdocument\x7d\n\\makecvtitle\n\n\\section\x7bProfessional Summary\x7d\n[SUMMARY]\n\n\\section\x7bExperience\x7d\n\\cventry\x7b[YEAR]--[YEAR]\x7d\x7b[POSITION]\x7d\x7b[COMPANY]\x7d\x7b[LOCATION]\x7d\x7b\x7d\x7b%\n[DESCRIPTION]\n\\begin\x7bitemize\x7d%\n\\item [ACHIEVEMENT_1]\n\\item [ACHIEVEMENT_2]\n\\item [ACHIEVEMENT_3]\n\\end\x7bitemize\x7d\x7d\n\n\\section\x7bEducation\x7d\n\\cventry\x7b[YEAR]--[YEAR]\x7d\x7b[DEGREE]\x7d\x7b[INSTITUTION]\x7d\x7b[LOCATION]\x7d\x7b\\textit\x7b[GPA]\x7d\x7d\x7b[DESCRIPTION]\x7d\n\n\\section\x7bSkills\x7d\n\\cvitemwithcomment\x7bProgramming\x7d\x7b[PROGRAMMING_SKILLS]\x7d\x7b[LEVEL]\x7d\n\\cvitemwithcomment\x7bTechnologies\x7d\x7b[TECH_SKILLS]\x7d\x7b[LEVEL]\x7d\n\\cvitemwithcomment\x7bLanguages\x7d\x7b[LANGUAGES]\x7d\x7b[LEVEL]\x7d\n\n\\section\x7bProjects\x7d\n\\cventry\x7b[YEAR]\x7d\x7b[PROJECT_NAME]\x7d\x7b[TECH_STACK]\x7d\x7b\x7d\x7b\x7d\x7b%\n[PROJECT_DESCRIPTION]\n\\begin\x7bitemize\x7d%\n\\item [FEATURE_1]\n\\item [FEATURE_2]\n\\end\x7bitemize\x7d\x7d\n\n\\end\x7bdocument\x7d\n").toList

/-- The `[TITLE]` substitution: `extract_job_title(job_description) or
'Professional'` (Python `or`, so an empty extraction also falls back). -/
def titleValue (jd : List Char) : List Char :=
  match extract_job_title jd with
  | none => ("Professional").toList
  | some t => if t.isEmpty then ("Professional").toList else t

/-- The `[PROGRAMMING_SKILLS]` substitution. -/
def skillsValue (ud : UserData) : List Char :=
  match ud.skills with
  | some (Sum.inl l) => pyJoin ((", ").toList) l
  | some (Sum.inr s) => s
  | none => ("Programming Languages").toList

/-- The placeholder keys of the substitution dictionary of
`get_fallback_template`, in dictionary (insertion) order. -/
def subPats : List (List Char) :=
  [("[NAME]").toList, ("[TITLE]").toList, ("[EMAIL]").toList,
   ("[PHONE]").toList, ("[ADDRESS]").toList, ("[LINKEDIN]").toList,
   ("[GITHUB]").toList, ("[SUMMARY]").toList, ("[YEAR]").toList,
   ("[POSITION]").toList, ("[COMPANY]").toList, ("[LOCATION]").toList,
   ("[DESCRIPTION]").toList, ("[ACHIEVEMENT_1]").toList,
   ("[ACHIEVEMENT_2]").toList, ("[ACHIEVEMENT_3]").toList,
   ("[DEGREE]").toList, ("[INSTITUTION]").toList, ("[GPA]").toList,
   ("[PROGRAMMING_SKILLS]").toList, ("[TECH_SKILLS]").toList,
   ("[LANGUAGES]").toList, ("[LEVEL]").toList, ("[PROJECT_NAME]").toList,
   ("[TECH_STACK]").toList, ("[PROJECT_DESCRIPTION]").toList,
   ("[FEATURE_1]").toList, ("[FEATURE_2]").toList]

/-- The replacement values of the substitution dictionary, in the same
order as `subPats`. -/
def subVals (ud : UserData) (jd : List Char) : List (List Char) :=
  [ud.name.getD (("Your Name").toList),
   titleValue jd,
   ud.email.getD (("your.email@example.com").toList),
   ud.phone.getD (("+1-234-567-8900").toList),
   ud.location.getD (("Your City, Country").toList),
   ud.linkedin.getD (("yourlinkedin").toList),
   ud.github.getD (("yourgithub").toList),
   ud.summary.getD (("Professional with relevant experience.").toList),
   ("2020").toList,
   ("Position Title").toList,
   ("Company Name").toList,
   ("City, Country").toList,
   ud.experience.getD (("Professional experience description.").toList),
   ("Key achievement or responsibility").toList,
   ("Another important accomplishment").toList,
   ("Additional relevant experience").toList,
   ud.education.getD (("Bachelor\x27s Degree").toList),
   ("University Name").toList,
   ("GPA").toList,
   skillsValue ud,
   ("React, Node.js, Docker").toList,
   ("English (Native), Spanish (Intermediate)").toList,
   ("Advanced").toList,
   ("Project Name").toList,
   ("Technology Stack").toList,
   ("Project description and impact.").toList,
   ("Key feature or accomplishment").toList,
   ("Another important feature").toList]

/-- The ordered substitution dictionary of `get_fallback_template`. -/
def substitutions (ud : UserData) (jd : List Char) : List (List Char × List Char) :=
  subPats.zip (subVals ud jd)

/-- `get_fallback_template`: the static template with the placeholder
substitutions applied in dictionary order. -/
def get_fallback_template (ud : UserData) (jd : List Char) (_template_name : List Char) : List Char :=
  applySubs (substitutions ud jd) get_basic_template

/-- The `\documentclass` structural preamble marker. -/
def docclassMarker : List Char :=
  ("\\documentclass").toList

/-- `\begin\x7bdocument\x7d`. -/
def beginDocMarker : List Char :=
  ("\\begin\x7bdocument\x7d").toList

/-- `\end\x7bdocument\x7d`. -/
def endDocMarker : List Char :=
  ("\\end\x7bdocument\x7d").toList

/-- `validate_latex_code` (gemini_service): the boolean component of
the returned pair.  Non-empty, starts with `\documentclass` after
stripping, contains the document environment, balanced braces. -/
def validate_latex_code (latex_code : List Char) : Bool :=
  if latex_code.isEmpty || (pyStrip latex_code).isEmpty then false
  else if !docclassMarker.isPrefixOf (pyStrip latex_code) then false
  else if !occursIn beginDocMarker latex_code then false
  else if !occursIn endDocMarker latex_code then false
  else latex_code.count '\x7b' == latex_code.count '\x7d'

/-- Outcome of the external Gemini call, as seen by the client: either
an error (missing API key is modelled separately, transport/parse
failures land here) or the parsed `latex_code` text. -/
structure GeminiEnv where
  apiKeyPresent : Bool
  callResult : Except Unit (List Char)

/-- The inline validation applied to generated text before it is
accepted: non-empty, stripped length at least 100, and the stripped
text starts with `\documentclass`. -/
def generated_latex_ok (latex : List Char) : Bool :=
  !(latex.isEmpty || decide ((pyStrip latex).length < 100))
    && docclassMarker.isPrefixOf (pyStrip latex)

/-- `generate_cv_with_gemini`: call the model and validate; on any
error or validation failure return the filled fallback template
instead of raising. -/
def generate_cv_with_gemini (env : GeminiEnv) (ud : UserData)
    (job_description template_name : List Char) : List Char :=
  let attempt : Except Unit (List Char) :=
    if !env.apiKeyPresent then Except.error ()
    else match env.callResult with
      | Except.error _ => Except.error ()
      | Except.ok latex =>
        if generated_latex_ok latex then Except.ok latex else Except.error ()
  match attempt with
  | Except.ok latex => latex
  | Except.error _ => get_fallback_template ud job_description template_name

/-- `edit_cv_with_gemini`: same call-and-validate shape, but on any
error or validation failure the **existing** LaTeX is returned. -/
def edit_cv_with_gemini (env : GeminiEnv) (existing_latex : List Char) : List Char :=
  let attempt : Except Unit (List Char) :=
    if !env.apiKeyPresent then Except.error ()
    else match env.callResult with
      | Except.error _ => Except.error ()
      | Except.ok latex =>
        if generated_latex_ok latex then Except.ok latex else Except.error ()
  match attempt with
  | Except.ok latex => latex
  | Except.error _ => existing_latex

/-! ## Three-tier compilation chain (services/latex_service.py) -/

/-- The file paths produced inside the per-job directory. -/
def pdfFile : List Char :=
  ("cv.pdf").toList

/-- The preview path inside the per-job directory. -/
def jpgFile : List Char :=
  ("cv.jpg").toList

/-- Outcome of the `pdflatex` compilation subprocess. -/
inductive PdflatexOutcome where
  | timeout
  | raised
  | completed (returncode : Int)
  deriving DecidableEq, Repr

/-- All the external facts one run of the compilation chain can
observe: whether the tex file could be written, the probe and compile
outcomes, file-system state, and whether each renderer succeeds. -/
structure CompileEnv where
  writeTexOk : Bool
  probeOk : Bool
  outcome : PdflatexOutcome
  pdfOnDisk : Bool
  preview1Ok : Bool
  fallbackDrawOk : Bool
  preview2Ok : Bool
  dummyPdfOk : Bool
  dummyJpgOk : Bool
  deriving Repr

/-- Error text of the tier-3 builder (the source appends the raised
exception's text). -/
def dummyFailMsg : List Char :=
  ("Complete PDF generation failure").toList

/-- Error raised when the per-job directory or the tex file cannot be
written (any exception before tier 1 runs). -/
def writeTexFailMsg : List Char :=
  ("could not write LaTeX file").toList

/-- `_create_jpg_preview`: catches every exception internally, returns
the jpg path on success and `None` on failure. -/
def create_jpg_preview (ok : Bool) : Option (List Char) :=
  if ok then some jpgFile else none

/-- `_compile_with_pdflatex` (tier 1): probe for the binary, run the
compiler, require exit code 0 and the PDF on disk; every failure mode
returns `(None, None)`. -/
def compile_with_pdflatex (env : CompileEnv) (user_tier : UserTier) :
    Option (List Char × Option (List Char)) :=
  if !env.probeOk then none
  else match env.outcome with
    | PdflatexOutcome.timeout => none
    | PdflatexOutcome.raised => none
    | PdflatexOutcome.completed rc =>
      if rc ≠ 0 then none
      else if !env.pdfOnDisk then none
      else some (pdfFile,
        if user_tier = UserTier.free then create_jpg_preview env.preview1Ok else none)

/-- `_create_dummy_files` (tier 3): draw the placeholder PDF; for free
users additionally draw the placeholder JPG **inside the same try**, so
a JPG failure raises even though the PDF was written. -/
def create_dummy_files (env : CompileEnv) (user_tier : UserTier) :
    Except (List Char) (List Char × Option (List Char)) :=
  if !env.dummyPdfOk then Except.error dummyFailMsg
  else if user_tier = UserTier.free then
    if env.dummyJpgOk then Except.ok (pdfFile, some jpgFile)
    else Except.error dummyFailMsg
  else Except.ok (pdfFile, none)

/-- `_create_fallback_pdf` (tier 2): reportlab rendering; previews go
through `_create_jpg_preview`; if the renderer itself raises, fall
through to the tier-3 builder. -/
def create_fallback_pdf (env : CompileEnv) (user_tier : UserTier) :
    Except (List Char) (List Char × Option (List Char)) :=
  if env.fallbackDrawOk then
    Except.ok (pdfFile,
      if user_tier = UserTier.free then create_jpg_preview env.preview2Ok else none)
  else create_dummy_files env user_tier

/-- `compile_latex_to_pdf`: write the tex file, try tier 1, fall back
to tier 2 (which itself falls back to tier 3); the outer handler sends
any escaped exception to the tier-3 builder once more. -/
def compile_latex_to_pdf (env : CompileEnv) (user_tier : UserTier) :
    Except (List Char) (List Char × Option (List Char)) :=
  let attempt : Except (List Char) (List Char × Option (List Char)) :=
    if !env.writeTexOk then Except.error writeTexFailMsg
    else match compile_with_pdflatex env user_tier with
      | some r => Except.ok r
      | none => create_fallback_pdf env user_tier
  match attempt with
  | Except.ok r => Except.ok r
  | Except.error _ => create_dummy_files env user_tier

/-! ## Celery tasks (tasks/cv_tasks.py)

A task run is a pure function of the record store (the `Option CVRec`
for its `cv_id`) and an environment collecting the outcomes of its
external calls; it returns the new store and either `ok` or the
re-raised exception message.  Progress reports (`self.update_state`)
are observational and not modelled; database commits are assumed to
succeed. -/

/-- Exception text when the Gemini step returns falsy text. -/
def msgGeminiEmpty : List Char :=
  ("Failed to generate LaTeX code with Gemini").toList

/-- Exception text when the CV row is missing. -/
def msgCvNotFound : List Char :=
  ("CV not found in database").toList

/-- Exception text when `update_cv_status` reports failure. -/
def msgUpdateFail : List Char :=
  ("Failed to update CV record in database").toList

/-- Exception text for an edit job without prior LaTeX. -/
def msgNoLatex : List Char :=
  ("No existing LaTeX code found for editing").toList

/-- Exception text when the stored `user_data` is not valid JSON. -/
def msgBadUserData : List Char :=
  ("Invalid user data format in CV record").toList

/-- Exception text when the Gemini edit step returns falsy text. -/
def msgEditEmpty : List Char :=
  ("Failed to edit LaTeX code with Gemini").toList

/-- Environment of one `generate_cv_task` run. -/
structure GenTaskEnv where
  genv : GeminiEnv
  cenv : CompileEnv
  elapsed : Int
  diskHas : Bool
  sizeOf : Int

/-- `generate_cv_task`: generate LaTeX, compile (three-tier chain),
finalize the record as Success; any exception finalizes the record as
Failed with the exception's message and the elapsed time and is
re-raised. -/
def generate_cv_task (env : GenTaskEnv) (db : Option CVRec) (ud : UserData)
    (job_description template_name : List Char) (user_tier : UserTier) :
    Option CVRec × Except (List Char) Unit :=
  let latex := generate_cv_with_gemini env.genv ud job_description template_name
  let attempt : Except (List Char) (Option CVRec) :=
    if latex.isEmpty then Except.error msgGeminiEmpty
    else match db with
      | none => Except.error msgCvNotFound
      | some _ =>
        match compile_latex_to_pdf env.cenv user_tier with
        | Except.error e => Except.error e
        | Except.ok (pdf, jpg) =>
          let res := update_cv_status db CVStatus.success none (some latex)
            (some pdf) jpg (some env.elapsed) env.diskHas env.sizeOf
          if res.2 then Except.ok res.1 else Except.error msgUpdateFail
  match attempt with
  | Except.ok db' => (db', Except.ok ())
  | Except.error e =>
    let res := update_cv_status db CVStatus.failed (some e) none none none
      (some env.elapsed) env.diskHas env.sizeOf
    (res.1, Except.error e)

/-- Environment of one `edit_cv_task` run. -/
structure EditTaskEnv where
  eenv : GeminiEnv
  cenv : CompileEnv
  parseOk : Bool
  elapsed : Int
  diskHas : Bool
  sizeOf : Int

/-- Python falsiness of the stored `latex_code` column
(`if not cv.latex_code`). -/
def latexFalsy (cv : CVRec) : Bool :=
  match cv.latex_code with
  | none => true
  | some s => s.isEmpty

/-- `edit_cv_task`: load the record, require prior LaTeX, parse the
stored profile, edit via Gemini, compile, finalize as Success; any
exception finalizes the record as Failed with the exception's message
and is re-raised. -/
def edit_cv_task (env : EditTaskEnv) (db : Option CVRec)
    (_edit_instructions : List Char) (user_tier : UserTier) :
    Option CVRec × Except (List Char) Unit :=
  let attempt : Except (List Char) (Option CVRec) :=
    match db with
    | none => Except.error msgCvNotFound
    | some cv =>
      if latexFalsy cv then Except.error msgNoLatex
      else if !env.parseOk then Except.error msgBadUserData
      else
        let edited := edit_cv_with_gemini env.eenv (cv.latex_code.getD [])
        if edited.isEmpty then Except.error msgEditEmpty
        else match compile_latex_to_pdf env.cenv user_tier with
        | Except.error e => Except.error e
        | Except.ok (pdf, jpg) =>
          let res := update_cv_status db CVStatus.success none (some edited)
            (some pdf) jpg (some env.elapsed) env.diskHas env.sizeOf
          if res.2 then Except.ok res.1 else Except.error msgUpdateFail
  match attempt with
  | Except.ok db' => (db', Except.ok ())
  | Except.error e =>
    let res := update_cv_status db CVStatus.failed (some e) none none none
      (some env.elapsed) env.diskHas env.sizeOf
    (res.1, Except.error e)

/-! ## CV API handlers (api/cvs.py) -/

/-- `create_cv` (POST handler), record construction: a fresh Pending
row with all processing fields null. -/
def createCv (user_id : Int) (title template_name user_data job_description : List Char) :
    CVRec :=
  { user_id := user_id
    title := title
    template_name := template_name
    user_data := user_data
    job_description := job_description
    latex_code := none
    pdf_path := none
    jpg_path := none
    status := CVStatus.pending
    task_id := none
    error_message := none
    pdf_size := none
    generation_time := none }

/-- `create_cv`, after dispatching the queue task: store the task
handle and move the row to Processing.  No other field is touched. -/
def claimForProcessing (cv : CVRec) (task_id : List Char) : CVRec :=
  { cv with task_id := some task_id, status := CVStatus.processing }

/-- `update_cv` (PUT handler), regeneration branch: rejected with 409
while the row is Processing; otherwise overwrite the provided inputs,
move the row to Processing and store the new task handle.  The stored
`error_message`, `pdf_path`, `jpg_path` and `latex_code` are **not**
cleared. -/
def editRestart (cv : CVRec) (newTitle newUserData newJobDescription : Option (List Char))
    (task_id : List Char) : Option CVRec :=
  if cv.status = CVStatus.processing then none
  else some { cv with
    title := newTitle.getD cv.title
    user_data := newUserData.getD cv.user_data
    job_description := newJobDescription.getD cv.job_description
    status := CVStatus.processing
    task_id := some task_id }

/-- Result of the `download_cv` handler. -/
inductive DownloadOutcome where
  | badRequest
  | notFound
  | served (path : List Char)
  deriving DecidableEq, Repr

/-- `download_cv` (GET handler) for an authenticated owner: the `token`
query parameter is read into a local variable and never consulted; the
file is served whenever the requested column is set and the file
exists. -/
def download_cv (cvLookup : Option CVRec) (file_type : List Char)
    (tokenArg : Option DownloadTokenRec) (fileOnDisk : Bool) : DownloadOutcome :=
  let _download_token := tokenArg
  if file_type ≠ ("pdf").toList ∧ file_type ≠ ("jpg").toList then
    DownloadOutcome.badRequest
  else match cvLookup with
    | none => DownloadOutcome.notFound
    | some cv =>
      let path := if file_type = ("pdf").toList then cv.pdf_path else cv.jpg_path
      match path with
      | none => DownloadOutcome.notFound
      | some p => if fileOnDisk then DownloadOutcome.served p else DownloadOutcome.notFound

/-- `generate_download_token` (POST handler), row construction:
`expires_at = now + expires_in`, `used` defaulted to `False`. -/
def generateDownloadToken (cv_id user_id : Int) (file_type : List Char)
    (now expires_in : Int) : DownloadTokenRec :=
  { cv_id := cv_id
    user_id := user_id
    file_type := file_type
    expires_at := now + expires_in
    used := false }

/-! ## Derived notions and concrete instances used by the claims -/

/-- The spec's Job Record consistency invariant: the error message is
non-null iff the status is Failed, and the PDF path is non-null iff the
status is Success. -/
def jobInvariant (cv : CVRec) : Bool :=
  (cv.error_message.isSome == (cv.status == CVStatus.failed))
    && (cv.pdf_path.isSome == (cv.status == CVStatus.success))

/-- A freshly created Job Record. -/
def cvDemo0 : CVRec :=
  createCv 1 (("My CV").toList) (("template_1").toList) (("ud").toList) (("jd").toList)

/-- `cvDemo0` claimed by a worker. -/
def cvDemo1 : CVRec :=
  claimForProcessing cvDemo0 (("task-1").toList)

/-- `cvDemo1` finalized as Failed. -/
def cvDemo2 : CVRec :=
  ((update_cv_status (some cvDemo1) CVStatus.failed (some (("boom").toList))
    none none none (some 3) false 0).1).getD cvDemo0

/-- `cvDemo2` put through an edit-cycle restart. -/
def cvDemo3 : CVRec :=
  (editRestart cvDemo2 none none (some (("new jd").toList)) (("task-2").toList)).getD cvDemo0

/-- A syntactically plausible generated LaTeX source of length ≥ 100
that passes the client's inline validation. -/
def sampleLatex : List Char :=
  ("\\documentclass[11pt]\x7barticle\x7d \\begin\x7bdocument\x7d This is a sufficiently long generated document body for validation purposes. \\end\x7bdocument\x7d").toList

/-- A compilation environment in which every external operation
succeeds and `pdflatex` exits 0. -/
def envAllOk : CompileEnv :=
  ⟨true, true, PdflatexOutcome.completed 0, true, true, true, true, true, true⟩

/-- A compilation environment in which the tex file is written but the
probe, the reportlab renderer and the placeholder builder all fail. -/
def envTotalFailure : CompileEnv :=
  ⟨true, false, PdflatexOutcome.raised, false, false, false, false, false, false⟩

/-- A Gemini environment whose call succeeds with `sampleLatex`. -/
def genvOk : GeminiEnv :=
  ⟨true, Except.ok sampleLatex⟩

/-- A Gemini environment whose external call errors. -/
def genvErr : GeminiEnv :=
  ⟨true, Except.error ()⟩

/-- A CV owned by user 1 whose PDF exists, used for the download
handler evaluations. -/
def cvWithPdf : CVRec :=
  { cvDemo0 with status := CVStatus.success, pdf_path := some pdfFile }

/-- An already-used download token that is also expired at time 5. -/
def staleToken : DownloadTokenRec :=
  { cv_id := 1, user_id := 1, file_type := ("pdf").toList, expires_at := 0, used := true }

/-- A Job Record with no generated source, for the edit-task claim. -/
def cvNoLatex : CVRec :=
  cvDemo1

/-- An edit-task environment (all flags benign). -/
def editEnvOk : EditTaskEnv :=
  ⟨genvOk, envAllOk, true, 7, true, 1000⟩

/-- A generation-task environment whose compilation chain fails
completely. -/
def genEnvCompileFail : GenTaskEnv :=
  ⟨genvOk, envTotalFailure, 7, true, 1000⟩

/-- A compilation environment that reaches tier 3, writes the
placeholder PDF, but fails its inline preview rendering. -/
def envTier3Preview : CompileEnv :=
  ⟨true, false, PdflatexOutcome.raised, false, false, false, false, true, false⟩

/-- A profile mapping whose name field is a single opening brace. -/
def udBrace : UserData :=
  { emptyUserData with name := some (("\x7b").toList) }

/-! ## Lemmas about the string primitives -/

theorem occursIn_iff {t : List Char} : ∀ {s : List Char}, occursIn t s = true ↔ t <:+: s := by
  intro s
  induction s with
  | nil =>
    simp [occursIn, List.isEmpty_iff, List.infix_nil]
  | cons c rest ih =>
    simp only [occursIn, Bool.or_eq_true, List.isPrefixOf_iff_prefix, ih,
      List.infix_cons_iff]

theorem applySubs_nil (s : List Char) : applySubs [] s = s :=
  rfl

theorem applySubs_cons (pr : List Char × List Char) (subs : List (List Char × List Char))
    (s : List Char) : applySubs (pr :: subs) s = applySubs subs (pyReplace s pr.1 pr.2) :=
  rfl

/-- A prefix avoiding the pattern's head character survives replacement. -/
theorem pyReplaceAux_keeps_front {p0 : Char} {pt repl : List Char} :
    ∀ {t : List Char}, p0 ∉ t →
      ∀ (fuel : Nat) (s : List Char), t <+: s → t <+: pyReplaceAux (p0 :: pt) repl fuel s := by
  intro t
  induction t with
  | nil =>
    intro _ fuel s _
    exact List.nil_prefix
  | cons c t' ih =>
    intro hp fuel s hts
    obtain ⟨u, hu⟩ := hts
    subst hu
    cases fuel with
    | zero => exact ⟨u, rfl⟩
    | succ fuel =>
      rw [List.cons_append, pyReplaceAux, if_neg]
      · refine List.cons_prefix_cons.mpr ⟨rfl, ?_⟩
        exact ih (fun hm => hp (List.mem_cons_of_mem _ hm)) fuel _ (List.prefix_append _ _)
      · rintro ⟨h1, -⟩
        rw [ List.isPrefixOf_iff_prefix] at h1
        have hpc : p0 = c := (List.cons_prefix_cons.mp h1).1
        refine hp ?_
        rw [hpc]
        exact List.mem_cons_self _ _

/-- An occurrence of `t0 :: tt` survives replacement when the pattern
contains neither the occurrence's head nor can start inside it. -/
theorem pyReplaceAux_keeps_occurrence {p0 t0 : Char} {pt tt repl : List Char}
    (hp0 : p0 ∉ t0 :: tt) (ht0 : t0 ∉ p0 :: pt) :
    ∀ (fuel : Nat) (s : List Char),
      (t0 :: tt) <:+: s → (t0 :: tt) <:+: pyReplaceAux (p0 :: pt) repl fuel s := by
  intro fuel
  induction fuel with
  | zero =>
    intro s h
    exact h
  | succ fuel ih =>
    intro s h
    match s with
    | [] => exact absurd (List.infix_nil.mp h) (by simp)
    | c :: rest =>
      by_cases hcond : (p0 :: pt).isPrefixOf (c :: rest) ∧ p0 :: pt ≠ ([] : List Char)
      · rw [pyReplaceAux, if_pos hcond]
        obtain ⟨pre, post, hs⟩ := h
        have hpre : (p0 :: pt).length ≤ pre.length := by
          by_contra hlt
          push_neg at hlt
          have h1 : (pre ++ [t0]) <+: (c :: rest) := by
            refine ⟨tt ++ post, ?_⟩
            rw [← hs]
            simp
          have h2 : (p0 :: pt) <+: (c :: rest) := List.isPrefixOf_iff_prefix.mp hcond.1
          rcases List.prefix_or_prefix_of_prefix h1 h2 with hq | hq
          · exact ht0 (hq.subset (by simp))
          · have hlen : (p0 :: pt).length = (pre ++ [t0]).length := by
              have := hq.length_le
              simp only [List.length_append, List.length_cons, List.length_nil] at this hlt ⊢
              omega
            have heq := hq.eq_of_length hlen
            exact ht0 (heq ▸ (by simp : t0 ∈ pre ++ [t0]))
        have hdrop : (t0 :: tt) <:+: ((c :: rest).drop (p0 :: pt).length) := by
          refine ⟨pre.drop (p0 :: pt).length, post, ?_⟩
          rw [← hs]
          simp only [List.append_assoc]
          rw [List.drop_append_of_le_length hpre]
        obtain ⟨a, b, hab⟩ := ih _ hdrop
        exact ⟨repl ++ a, b, by rw [← hab]; simp⟩
      · rw [pyReplaceAux, if_neg hcond]
        obtain ⟨pre, post, hs⟩ := h
        cases pre with
        | nil =>
          simp only [List.nil_append, List.cons_append, List.cons.injEq] at hs
          obtain ⟨rfl, hrest⟩ := hs
          have hfront : tt <+: pyReplaceAux (p0 :: pt) repl fuel rest := by
            refine pyReplaceAux_keeps_front (fun hm => hp0 (List.mem_cons_of_mem _ hm)) fuel rest ?_
            exact hrest ▸ List.prefix_append tt post
          exact List.IsPrefix.isInfix (List.cons_prefix_cons.mpr ⟨rfl, hfront⟩)
        | cons q pre' =>
          simp only [List.cons_append, List.cons.injEq] at hs
          exact List.infix_cons (ih _ ⟨pre', post, hs.2⟩)

/-- Replacement preserves the count of any character that occurs in
neither the pattern nor the replacement. -/
theorem pyReplaceAux_count_eq {c : Char} {pat repl : List Char}
    (hpat : c ∉ pat) (hrepl : c ∉ repl) :
    ∀ (fuel : Nat) (s : List Char), (pyReplaceAux pat repl fuel s).count c = s.count c := by
  intro fuel
  induction fuel with
  | zero =>
    intro s
    rfl
  | succ fuel ih =>
    intro s
    match s with
    | [] => rfl
    | ch :: rest =>
      by_cases hcond : pat.isPrefixOf (ch :: rest) ∧ pat ≠ ([] : List Char)
      · rw [pyReplaceAux, if_pos hcond]
        obtain ⟨u, hu⟩ := List.isPrefixOf_iff_prefix.mp hcond.1
        have hdrop : (ch :: rest).drop pat.length = u := by
          rw [← hu, List.drop_left]
        rw [List.count_append, ih, hdrop, ← hu, List.count_append,
          List.count_eq_zero.mpr hrepl, List.count_eq_zero.mpr hpat]
      · rw [pyReplaceAux, if_neg hcond]
        rw [List.count_cons, List.count_cons, ih]

/-- `dropWhile` distributes over an append whose left part contains a
character failing the predicate. -/
theorem dropWhile_append_stop {p : Char → Bool} :
    ∀ {a : List Char}, (∃ x ∈ a, p x = false) → ∀ (b : List Char),
      (a ++ b).dropWhile p = a.dropWhile p ++ b := by
  intro a
  induction a with
  | nil =>
    rintro ⟨x, hx, -⟩
    exact absurd hx (List.not_mem_nil x)
  | cons c a' ih =>
    intro h b
    by_cases hc : p c
    · rw [List.cons_append, List.dropWhile_cons_of_pos hc, List.dropWhile_cons_of_pos hc]
      refine ih ?_ b
      rcases h with ⟨x, hx, hpx⟩
      rcases List.mem_cons.mp hx with rfl | hx'
      · rw [hc] at hpx
        exact absurd hpx (by simp)
      · exact ⟨x, hx', hpx⟩
    · rw [List.cons_append, List.dropWhile_cons_of_neg hc, List.dropWhile_cons_of_neg hc,
        List.cons_append]

/-- Lifting of `pyReplaceAux_keeps_front` over a substitution list. -/
theorem applySubs_keeps_front {t : List Char}
    (subs : List (List Char × List Char))
    (h : ∀ pr ∈ subs, ∃ p0 pt, pr.1 = p0 :: pt ∧ p0 ∉ t) :
    ∀ (s : List Char), t <+: s → t <+: applySubs subs s := by
  induction subs with
  | nil =>
    intro s hs
    exact hs
  | cons pr subs ih =>
    intro s hs
    obtain ⟨p0, pt, hpr, hp0⟩ := h pr (List.mem_cons_self _ _)
    rw [applySubs_cons]
    refine ih (fun q hq => h q (List.mem_cons_of_mem _ hq)) _ ?_
    unfold pyReplace
    rw [hpr]
    exact pyReplaceAux_keeps_front hp0 _ _ hs

/-- Lifting of `pyReplaceAux_keeps_occurrence` over a substitution list. -/
theorem applySubs_keeps_occurrence {t0 : Char} {tt : List Char}
    (subs : List (List Char × List Char))
    (h : ∀ pr ∈ subs, ∃ p0 pt, pr.1 = p0 :: pt ∧ p0 ∉ t0 :: tt ∧ t0 ∉ p0 :: pt) :
    ∀ (s : List Char), (t0 :: tt) <:+: s → (t0 :: tt) <:+: applySubs subs s := by
  induction subs with
  | nil =>
    intro s hs
    exact hs
  | cons pr subs ih =>
    intro s hs
    obtain ⟨p0, pt, hpr, hp0, ht0⟩ := h pr (List.mem_cons_self _ _)
    rw [applySubs_cons]
    refine ih (fun q hq => h q (List.mem_cons_of_mem _ hq)) _ ?_
    unfold pyReplace
    rw [hpr]
    exact pyReplaceAux_keeps_occurrence hp0 ht0 _ _ hs

/-- Lifting of `pyReplaceAux_count_eq` over a substitution list. -/
theorem applySubs_count_eq {c : Char}
    (subs : List (List Char × List Char))
    (h : ∀ pr ∈ subs, c ∉ pr.1 ∧ c ∉ pr.2) :
    ∀ (s : List Char), (applySubs subs s).count c = s.count c := by
  induction subs with
  | nil =>
    intro s
    rfl
  | cons pr subs ih =>
    intro s
    obtain ⟨h1, h2⟩ := h pr (List.mem_cons_self _ _)
    rw [applySubs_cons, ih (fun q hq => h q (List.mem_cons_of_mem _ hq))]
    exact pyReplaceAux_count_eq h1 h2 _ _

/-- Stripping a string of the shape `'\n' :: \documentclass ++ u`, with
a non-whitespace character somewhere in `u`, leaves `\documentclass` in
front. -/
theorem strip_starts_docclass {u : List Char} (h : ∃ x ∈ u, wsChar x = false) :
    docclassMarker.isPrefixOf (pyStrip ('\n' :: (docclassMarker ++ u))) = true := by
  have hdc : docclassMarker = '\\' :: ("documentclass").toList := rfl
  have h1 : List.dropWhile wsChar ('\n' :: (docclassMarker ++ u)) = docclassMarker ++ u := by
    rw [List.dropWhile_cons_of_pos (by decide), hdc, List.cons_append,
      List.dropWhile_cons_of_neg (by decide)]
  have h2 : ∃ x ∈ u.reverse, wsChar x = false := by
    obtain ⟨x, hx, hpx⟩ := h
    exact ⟨x, List.mem_reverse.mpr hx, hpx⟩
  unfold pyStrip
  rw [h1, List.reverse_append, dropWhile_append_stop h2, List.reverse_append,
    List.reverse_reverse]
  rw [ List.isPrefixOf_iff_prefix]
  exact List.prefix_append _ _

/-! ## Facts about the static template and the substitution table -/

theorem subPats_facts : ∀ p ∈ subPats,
    p.head? = some '[' ∧ '\\' ∉ p ∧ '\x7b' ∉ p ∧ '\x7d' ∉ p := by
  decide

theorem template_count_open : get_basic_template.count '\x7b' = 54 := by
  decide

theorem template_count_close : get_basic_template.count '\x7d' = 54 := by
  decide

theorem template_has_begin : occursIn beginDocMarker get_basic_template = true := by
  decide

theorem template_has_end : occursIn endDocMarker get_basic_template = true := by
  decide

theorem template_shape :
    get_basic_template = '\n' :: (docclassMarker ++ get_basic_template.drop 15) := by
  decide

theorem substitutions_pats_mem {ud : UserData} {jd : List Char} :
    ∀ pr ∈ substitutions ud jd, pr.1 ∈ subPats := by
  rintro ⟨p, v⟩ hpr
  exact (List.of_mem_zip hpr).1

theorem substitutions_vals_mem {ud : UserData} {jd : List Char} :
    ∀ pr ∈ substitutions ud jd, pr.2 ∈ subVals ud jd := by
  rintro ⟨p, v⟩ hpr
  exact (List.of_mem_zip hpr).2

/-- Every substitution pattern starts with `[`, which keeps any
bracket-free front segment intact. -/
theorem substitutions_front_cond (ud : UserData) (jd : List Char) {t : List Char}
    (ht : '[' ∉ t) :
    ∀ pr ∈ substitutions ud jd, ∃ p0 pt, pr.1 = p0 :: pt ∧ p0 ∉ t := by
  intro pr hpr
  obtain ⟨hhead, -, -, -⟩ := subPats_facts pr.1 (substitutions_pats_mem pr hpr)
  rcases hq : pr.1 with - | ⟨p0, pt⟩
  · rw [hq] at hhead
    exact absurd hhead (by simp)
  · rw [hq] at hhead
    simp only [List.head?_cons, Option.some.injEq] at hhead
    subst hhead
    exact ⟨'[', pt, rfl, ht⟩

/-- Every substitution pattern starts with `[` and contains no
backslash, which keeps any bracket-free occurrence starting with a
backslash intact. -/
theorem substitutions_occurrence_cond (ud : UserData) (jd : List Char) {tt : List Char}
    (ht : '[' ∉ ('\\' :: tt)) :
    ∀ pr ∈ substitutions ud jd,
      ∃ p0 pt, pr.1 = p0 :: pt ∧ p0 ∉ ('\\' :: tt) ∧ '\\' ∉ p0 :: pt := by
  intro pr hpr
  obtain ⟨hhead, hbs, -, -⟩ := subPats_facts pr.1 (substitutions_pats_mem pr hpr)
  rcases hq : pr.1 with - | ⟨p0, pt⟩
  · rw [hq] at hhead
    exact absurd hhead (by simp)
  · rw [hq] at hhead hbs
    simp only [List.head?_cons, Option.some.injEq] at hhead
    subst hhead
    exact ⟨'[', pt, rfl, ht, hbs⟩

/-- Brace-freeness of the substitution table, given brace-free values. -/
theorem substitutions_count_cond (ud : UserData) (jd : List Char) {c : Char}
    (hc : c = '\x7b' ∨ c = '\x7d')
    (h : ∀ v ∈ subVals ud jd, '\x7b' ∉ v ∧ '\x7d' ∉ v) :
    ∀ pr ∈ substitutions ud jd, c ∉ pr.1 ∧ c ∉ pr.2 := by
  intro pr hpr
  obtain ⟨-, -, hb1, hb2⟩ := subPats_facts pr.1 (substitutions_pats_mem pr hpr)
  obtain ⟨hv1, hv2⟩ := h pr.2 (substitutions_vals_mem pr hpr)
  rcases hc with rfl | rfl
  · exact ⟨hb1, hv1⟩
  · exact ⟨hb2, hv2⟩

/-! ## Properties of the fallback template -/

/-- The document-environment markers survive the substitutions, for
every profile mapping and description. -/
theorem fallback_keeps_markers (ud : UserData) (jd tn : List Char) :
    beginDocMarker <:+: get_fallback_template ud jd tn
      ∧ endDocMarker <:+: get_fallback_template ud jd tn := by
  unfold get_fallback_template
  constructor
  · have hb : beginDocMarker <:+: get_basic_template := occursIn_iff.mp template_has_begin
    have hbd : beginDocMarker = '\\' :: ("begin\x7bdocument\x7d").toList := rfl
    rw [hbd] at hb ⊢
    exact applySubs_keeps_occurrence _ (substitutions_occurrence_cond ud jd (by decide)) _ hb
  · have he : endDocMarker <:+: get_basic_template := occursIn_iff.mp template_has_end
    have hed : endDocMarker = '\\' :: ("end\x7bdocument\x7d").toList := rfl
    rw [hed] at he ⊢
    exact applySubs_keeps_occurrence _ (substitutions_occurrence_cond ud jd (by decide)) _ he

/-- The fallback source is never empty, for every profile mapping. -/
theorem fallback_nonempty (ud : UserData) (jd tn : List Char) :
    get_fallback_template ud jd tn ≠ [] := by
  intro hnil
  have hb := (fallback_keeps_markers ud jd tn).1
  rw [hnil] at hb
  exact absurd (List.infix_nil.mp hb) (by simp [beginDocMarker])

/-- The template's front segment survives the substitutions. -/
theorem fallback_keeps_docclass_front (ud : UserData) (jd tn : List Char) :
    ('\n' :: docclassMarker) <+: get_fallback_template ud jd tn := by
  unfold get_fallback_template
  refine applySubs_keeps_front _ (substitutions_front_cond ud jd (by decide)) _ ?_
  refine ⟨get_basic_template.drop 15, ?_⟩
  rw [List.cons_append]
  exact template_shape.symm

/-- Brace counts of the filled template, given brace-free values. -/
theorem fallback_counts (ud : UserData) (jd tn : List Char)
    (h : ∀ v ∈ subVals ud jd, '\x7b' ∉ v ∧ '\x7d' ∉ v) :
    (get_fallback_template ud jd tn).count '\x7b' = 54
      ∧ (get_fallback_template ud jd tn).count '\x7d' = 54 := by
  unfold get_fallback_template
  constructor
  · rw [applySubs_count_eq _ (substitutions_count_cond ud jd (Or.inl rfl) h)]
    exact template_count_open
  · rw [applySubs_count_eq _ (substitutions_count_cond ud jd (Or.inr rfl) h)]
    exact template_count_close

/-- C5 (amended): the substitute source produced by the fallback path
passes the format validity check — non-empty, starts with
`\documentclass` after stripping, contains the document environment
markers, balanced braces — provided every substituted value (each
provided profile field and the extracted job title) is free of brace
characters. -/
theorem fallback_passes_validation (ud : UserData) (jd tn : List Char)
    (h : ∀ v ∈ subVals ud jd, '\x7b' ∉ v ∧ '\x7d' ∉ v) :
    validate_latex_code (get_fallback_template ud jd tn) = true := by
  obtain ⟨u', hu⟩ := fallback_keeps_docclass_front ud jd tn
  have hRu : get_fallback_template ud jd tn = '\n' :: (docclassMarker ++ u') := by
    rw [← hu, List.cons_append]
  obtain ⟨hc7b, hc7d⟩ := fallback_counts ud jd tn h
  obtain ⟨hbeg, hend⟩ := fallback_keeps_markers ud jd tn
  have hdccount : docclassMarker.count '\x7d' = 0 := by decide
  have hcu : u'.count '\x7d' = 54 := by
    rw [hRu, List.count_cons, List.count_append, hdccount] at hc7d
    simpa using hc7d
  have hmem : '\x7d' ∈ u' := List.count_pos_iff.mp (by omega)
  have hstrip := strip_starts_docclass (u := u') ⟨'\x7d', hmem, by decide⟩
  have hstrip_ne : (pyStrip ('\n' :: (docclassMarker ++ u'))).isEmpty = false := by
    rcases hq : pyStrip ('\n' :: (docclassMarker ++ u')) with - | ⟨c, cs⟩
    · rw [hq] at hstrip
      exact absurd hstrip (by decide)
    · rfl
  rw [hRu] at hbeg hend hc7b hc7d ⊢
  have e1 : ('\n' :: (docclassMarker ++ u')).isEmpty = false := rfl
  have e2 : occursIn beginDocMarker ('\n' :: (docclassMarker ++ u')) = true :=
    occursIn_iff.mpr hbeg
  have e3 : occursIn endDocMarker ('\n' :: (docclassMarker ++ u')) = true :=
    occursIn_iff.mpr hend
  simp [validate_latex_code, e1, hstrip_ne, hstrip, e2, e3, hc7b, hc7d]

/-! ## Claims -/

/-- C1: the compilation fallback chain is linear and attempted strictly
in order with no backtracking.  Tier 1 succeeds exactly when the probe
succeeds, `pdflatex` exits 0 and the output PDF is on disk; every
tier-1 failure mode (probe failure or timeout, compile timeout,
non-zero exit, missing output) falls through, without raising, to the
reportlab renderer; if that renderer raises, the chain falls through to
the placeholder builder; and the chain returns the result of the first
tier that succeeds. -/
theorem compile_chain_linear_in_order (env : CompileEnv) (tier : UserTier)
    (hw : env.writeTexOk = true) :
    (compile_with_pdflatex env tier ≠ none ↔
      (env.probeOk = true ∧ env.outcome = PdflatexOutcome.completed 0
        ∧ env.pdfOnDisk = true))
    ∧ compile_latex_to_pdf env tier =
        (match compile_with_pdflatex env tier with
         | some r => Except.ok r
         | none =>
           if env.fallbackDrawOk then
             Except.ok (pdfFile,
               if tier = UserTier.free then create_jpg_preview env.preview2Ok else none)
           else create_dummy_files env tier) := by
  obtain ⟨w, p, o, d, p1, f2, p2, dp, dj⟩ := env
  simp only at hw
  subst hw
  constructor
  · unfold compile_with_pdflatex
    cases p <;> simp
    rcases o with - | - | rc <;> simp
  · unfold compile_latex_to_pdf create_fallback_pdf create_dummy_files
    rcases hcw : compile_with_pdflatex ⟨true, p, o, d, p1, f2, p2, dp, dj⟩ tier with - | r <;>
      cases f2 <;> cases dp <;> cases dj <;> rcases tier with - | - | - <;>
        simp [hcw]

/-- Witness for `compile_chain_linear_in_order`: with the probe failing
and the reportlab renderer available, the chain returns the tier-2
artifact. -/
theorem compile_chain_linear_in_order_check :
    compile_latex_to_pdf ⟨true, false, PdflatexOutcome.raised, false, false, true, true, true, true⟩
        UserTier.pro = Except.ok (pdfFile, none) := by
  have h := compile_chain_linear_in_order
    ⟨true, false, PdflatexOutcome.raised, false, false, true, true, true, true⟩ UserTier.pro rfl
  rw [h.2]
  rfl

/-- C8: a Download Token is valid iff its used flag is false and its
expiry lies strictly in the future, and a token issued with a TTL
expires exactly at issuance time plus the TTL. -/
theorem token_validity_and_issuance (t : DownloadTokenRec) (now : Int)
    (cv_id user_id : Int) (ft : List Char) (ttl : Int) :
    (token_is_valid t now = true ↔ (t.used = false ∧ now < t.expires_at))
    ∧ (generateDownloadToken cv_id user_id ft now ttl).expires_at = now + ttl
    ∧ (generateDownloadToken cv_id user_id ft now ttl).used = false := by
  refine ⟨?_, rfl, rfl⟩
  unfold token_is_valid
  cases ht : t.used <;> simp [gt_iff_lt]

/-- C7 (code evaluated at the failing input): the download handler
serves the PDF to the owner even though the presented token is used and
expired, and its outcome does not depend on the token at all. -/
theorem download_serves_despite_invalid_token :
    token_is_valid staleToken 5 = false
    ∧ download_cv (some cvWithPdf) (("pdf").toList) (some staleToken) true
        = DownloadOutcome.served pdfFile
    ∧ download_cv (some cvWithPdf) (("pdf").toList) none true
        = download_cv (some cvWithPdf) (("pdf").toList) (some staleToken) true := by
  decide

/-- C9 counterexample: in tier 3 for a free user, the placeholder PDF
is written (`dummyPdfOk = true`) but the inline preview rendering
fails, and the chain raises instead of returning the PDF with a null
preview. -/
theorem preview_failure_fatal_in_tier3 :
    envTier3Preview.dummyPdfOk = true
    ∧ envTier3Preview.dummyJpgOk = false
    ∧ compile_latex_to_pdf envTier3Preview UserTier.free = Except.error dummyFailMsg := by
  exact ⟨rfl, rfl, rfl⟩

/-- C9 (amended): preview failure is non-fatal in tiers 1 and 2 — when
the tier's PDF is produced and `_create_jpg_preview` fails, the chain
still returns the PDF path paired with a null preview path; in tier 3
the inline preview failure raises instead. -/
theorem preview_failure_nonfatal_tiers_1_2 (env : CompileEnv)
    (hw : env.writeTexOk = true) :
    (env.probeOk = true → env.outcome = PdflatexOutcome.completed 0 →
      env.pdfOnDisk = true → env.preview1Ok = false →
      compile_latex_to_pdf env UserTier.free = Except.ok (pdfFile, none))
    ∧ (compile_with_pdflatex env UserTier.free = none → env.fallbackDrawOk = true →
      env.preview2Ok = false →
      compile_latex_to_pdf env UserTier.free = Except.ok (pdfFile, none)) := by
  obtain ⟨w, p, o, d, p1, f2, p2, dp, dj⟩ := env
  simp only at hw
  subst hw
  constructor
  · intro hp ho hd h1
    simp only at hp ho hd h1
    subst hp
    subst ho
    subst hd
    subst h1
    simp [compile_latex_to_pdf, compile_with_pdflatex, create_jpg_preview]
  · intro hcw hf2 h2
    simp only at hf2 h2
    subst hf2
    subst h2
    simp [compile_latex_to_pdf, hcw, create_fallback_pdf, create_jpg_preview]

/-- Witness for `preview_failure_nonfatal_tiers_1_2`: both the tier-1
and the tier-2 preview failures yield the PDF with a null preview. -/
theorem preview_failure_nonfatal_tiers_1_2_check :
    compile_latex_to_pdf ⟨true, true, PdflatexOutcome.completed 0, true, false, true, true, true, true⟩
        UserTier.free = Except.ok (pdfFile, none)
    ∧ compile_latex_to_pdf ⟨true, false, PdflatexOutcome.raised, false, false, true, false, true, true⟩
        UserTier.free = Except.ok (pdfFile, none) := by
  constructor
  · exact (preview_failure_nonfatal_tiers_1_2 _ rfl).1 rfl rfl rfl rfl
  · exact (preview_failure_nonfatal_tiers_1_2 _ rfl).2 rfl rfl rfl

/-- C10: `use_generation` decrements the counter exactly when the tier
is FREE and the counter is positive, so the counter never becomes
negative and PRO/ENTERPRISE counters are never changed; and
`can_generate_cv` is true for FREE users iff the counter is positive
and always true for the other tiers. -/
theorem quota_counter_safety (u : UserRec) :
    ((use_generation u).generations_left =
      if u.user_tier = UserTier.free ∧ 0 < u.generations_left
      then u.generations_left - 1 else u.generations_left)
    ∧ (0 ≤ u.generations_left → 0 ≤ (use_generation u).generations_left)
    ∧ (u.user_tier ≠ UserTier.free → use_generation u = u)
    ∧ (u.user_tier = UserTier.free →
        (can_generate_cv u = true ↔ 0 < u.generations_left))
    ∧ (u.user_tier ≠ UserTier.free → can_generate_cv u = true) := by
  obtain ⟨tier, n⟩ := u
  cases tier
  · by_cases hn : (0 : Int) < n
    · simp [use_generation, can_generate_cv, hn]
      omega
    · simp [use_generation, can_generate_cv, hn]
  · simp [use_generation, can_generate_cv]
  · simp [use_generation, can_generate_cv]

/-- Witness for `quota_counter_safety` at concrete users. -/
theorem quota_counter_safety_check :
    0 ≤ (use_generation ⟨UserTier.free, 2⟩).generations_left
    ∧ use_generation ⟨UserTier.pro, 5⟩ = ⟨UserTier.pro, 5⟩
    ∧ can_generate_cv ⟨UserTier.enterprise, 0⟩ = true := by
  refine ⟨(quota_counter_safety ⟨UserTier.free, 2⟩).2.1 (by decide), ?_, ?_⟩
  · exact (quota_counter_safety ⟨UserTier.pro, 5⟩).2.2.1 (by decide)
  · exact (quota_counter_safety ⟨UserTier.enterprise, 0⟩).2.2.2.2 (by decide)

/-- Shape of a Failed finalization through `update_cv_status`. -/
theorem update_failed_shape (cv : CVRec) (e : List Char) (t : Int) (dh : Bool) (so : Int) :
    update_cv_status (some cv) CVStatus.failed (some e) none none none (some t) dh so
      = (some { cv with
                status := CVStatus.failed
                error_message := some e
                generation_time := some t }, true) :=
  rfl

/-- C2: every exit path of `generate_cv_task` leaves the Job Record in
a terminal status: if an exception is raised the record is set to
Failed with the exception's message and the elapsed time and the
exception is re-raised; otherwise the record is set to Success.  No
exit leaves the record in Processing. -/
theorem generate_task_terminal (env : GenTaskEnv) (cv : CVRec) (ud : UserData)
    (jd tn : List Char) (tier : UserTier) :
    match generate_cv_task env (some cv) ud jd tn tier with
    | (some cv', Except.ok _) =>
        cv'.status = CVStatus.success ∧ cv'.status ≠ CVStatus.processing
    | (some cv', Except.error e) =>
        cv'.status = CVStatus.failed ∧ cv'.error_message = some e
          ∧ cv'.generation_time = some env.elapsed
          ∧ cv'.status ≠ CVStatus.processing
    | (none, _) => False := by
  unfold generate_cv_task
  by_cases hL : (generate_cv_with_gemini env.genv ud jd tn).isEmpty
  · simp [hL, update_failed_shape]
  · rcases hc : compile_latex_to_pdf env.cenv tier with e | ⟨pdf, jpg⟩
    · simp [hL, hc, update_failed_shape]
    · rcases jpg with - | j <;> cases hdk : env.diskHas <;>
        simp [hL, hc, hdk, update_cv_status]

/-- Witness for `generate_task_terminal` at a concrete environment
whose compilation chain fails completely: the record ends Failed with
the chain's message. -/
theorem generate_task_terminal_check :
    match generate_cv_task genEnvCompileFail (some cvDemo1) emptyUserData [] [] UserTier.pro with
    | (some cv', Except.ok _) =>
        cv'.status = CVStatus.success ∧ cv'.status ≠ CVStatus.processing
    | (some cv', Except.error e) =>
        cv'.status = CVStatus.failed ∧ cv'.error_message = some e
          ∧ cv'.generation_time = some genEnvCompileFail.elapsed
          ∧ cv'.status ≠ CVStatus.processing
    | (none, _) => False :=
  generate_task_terminal genEnvCompileFail cvDemo1 emptyUserData [] [] UserTier.pro

/-- C6: an edit job whose Job Record has no existing generated source
(`latex_code` null or empty) terminates with status Failed and the
no-prior-source error message, and the message is re-raised. -/
theorem edit_task_fails_without_prior_source (env : EditTaskEnv) (cv : CVRec)
    (instr : List Char) (tier : UserTier)
    (h : cv.latex_code = none ∨ cv.latex_code = some []) :
    edit_cv_task env (some cv) instr tier
      = (some { cv with
                status := CVStatus.failed
                error_message := some msgNoLatex
                generation_time := some env.elapsed }, Except.error msgNoLatex) := by
  have hf : latexFalsy cv = true := by
    rcases h with h | h <;> simp [latexFalsy, h]
  unfold edit_cv_task
  simp [hf, update_failed_shape]

/-- Witness for `edit_task_fails_without_prior_source` at a concrete
record (fresh, no generated source) and environment. -/
theorem edit_task_fails_without_prior_source_check :
    (edit_cv_task editEnvOk (some cvNoLatex) [] UserTier.pro).2 = Except.error msgNoLatex
    ∧ (edit_cv_task editEnvOk (some cvNoLatex) [] UserTier.pro).1.all
        (fun cv' => cv'.status == CVStatus.failed) = true := by
  have h := edit_task_fails_without_prior_source editEnvOk cvNoLatex [] UserTier.pro (Or.inl rfl)
  rw [h]
  exact ⟨rfl, rfl⟩

/-- C3: the content-generation client never propagates failure — if the
external call errors (or the API key is absent) or the returned text
fails validation, `generate_cv_with_gemini` returns the filled static
fallback template instead of raising, and its result is always
non-empty. -/
theorem gemini_never_propagates_failure (env : GeminiEnv) (ud : UserData)
    (jd tn : List Char) :
    ((env.apiKeyPresent = false
        ∨ env.callResult = Except.error ()
        ∨ (∃ t, env.callResult = Except.ok t ∧ generated_latex_ok t = false)) →
      generate_cv_with_gemini env ud jd tn = get_fallback_template ud jd tn)
    ∧ generate_cv_with_gemini env ud jd tn ≠ [] := by
  constructor
  · intro hfail
    unfold generate_cv_with_gemini
    rcases henv : env.callResult with u | t
    · cases hk : env.apiKeyPresent <;> simp [hk, henv]
    · rcases hfail with hk | herr | ⟨t', ht', hbad⟩
      · simp [hk, henv]
      · rw [henv] at herr
        exact absurd herr (by simp)
      · rw [henv] at ht'
        simp only [Except.ok.injEq] at ht'
        subst ht'
        cases hk : env.apiKeyPresent <;> simp [hk, henv, hbad]
  · unfold generate_cv_with_gemini
    cases hk : env.apiKeyPresent
    · simpa [hk] using fallback_nonempty ud jd tn
    · rcases henv : env.callResult with u | t
      · simpa [hk, henv] using fallback_nonempty ud jd tn
      · by_cases hv : generated_latex_ok t = true
        · simp only [hk, henv, hv, Bool.not_true, Bool.false_eq_true, if_false, if_true]
          intro hnil
          rw [hnil] at hv
          exact absurd hv (by decide)
        · simp only [Bool.not_eq_true] at hv
          simpa [hk, henv, hv] using fallback_nonempty ud jd tn

/-- Witness for `gemini_never_propagates_failure`: an erroring call
yields exactly the fallback template, which is non-empty. -/
theorem gemini_never_propagates_failure_check :
    generate_cv_with_gemini genvErr emptyUserData [] []
        = get_fallback_template emptyUserData [] []
    ∧ generate_cv_with_gemini genvErr emptyUserData [] [] ≠ [] := by
  have h := gemini_never_propagates_failure genvErr emptyUserData [] []
  exact ⟨h.1 (Or.inr (Or.inl rfl)), h.2⟩

/-- C5 counterexample: a profile whose name field is an opening brace
makes the filled fallback template fail the format validity check
(unbalanced braces), refuting the claim for arbitrary profile data. -/
theorem fallback_validation_fails_on_brace :
    validate_latex_code
      (get_fallback_template udBrace (("x").toList) (("template_1").toList)) = false := by
  decide

/-- Witness for `fallback_passes_validation`: the empty profile mapping
produces only brace-free substitution values, and the resulting source
passes validation. -/
theorem fallback_passes_validation_check :
    validate_latex_code
      (get_fallback_template emptyUserData (("x").toList) (("template_1").toList)) = true :=
  fallback_passes_validation emptyUserData (("x").toList) (("template_1").toList) (by decide)

/-- C4 counterexample: a record that Failed and is then put through an
edit-cycle restart is Processing while its error message is still set,
violating the claimed invariant: the restart does not clear the stale
error message (nor would it clear a stale artifact path). -/
theorem job_invariant_violated_by_edit_restart :
    jobInvariant cvDemo2 = true
    ∧ cvDemo3.status = CVStatus.processing
    ∧ cvDemo3.error_message = some (("boom").toList)
    ∧ jobInvariant cvDemo3 = false := by
  decide

/-- C4 (amended): the Job Record consistency invariant (error message
non-null iff Failed, PDF path non-null iff Success) is established at
creation and preserved by claiming and by the first finalization of a
fresh record; the edit-cycle restart does not preserve it, because it
sets Processing without clearing the stale error message or artifact
path. -/
theorem job_invariant_first_cycle (user_id : Int)
    (title tn ud jd tid latex pdf e : List Char) (jpg : Option (List Char))
    (t sizeOf : Int) (diskHas : Bool) :
    jobInvariant (createCv user_id title tn ud jd) = true
    ∧ jobInvariant (claimForProcessing (createCv user_id title tn ud jd) tid) = true
    ∧ ((update_cv_status (some (claimForProcessing (createCv user_id title tn ud jd) tid))
        CVStatus.success none (some latex) (some pdf) jpg (some t) diskHas sizeOf).1.all
          jobInvariant) = true
    ∧ ((update_cv_status (some (claimForProcessing (createCv user_id title tn ud jd) tid))
        CVStatus.failed (some e) none none none (some t) diskHas sizeOf).1.all
          jobInvariant) = true := by
  refine ⟨rfl, rfl, ?_, ?_⟩
  · rcases jpg with - | j <;> cases diskHas <;>
      simp [update_cv_status, createCv, claimForProcessing, jobInvariant]
  · simp [update_cv_status, createCv, claimForProcessing, jobInvariant]

end MorphCV
